import Mathlib

/-
  Verification development for the validation engine of the
  edge-image-builder repository.

  The Go validators are shallowly embedded as pure Lean functions.
  Failure messages are represented by the inductive type `Msg`: each
  constructor corresponds to one fmt string in the source, carrying the
  interpolated values as explicit arguments.  The Go struct
  FailedValidation (UserMessage string, Error error) is embedded as a
  structure carrying the message and a flag recording whether the Error
  field was populated.
-/

set_option maxRecDepth 8000
set_option maxHeartbeats 1000000

namespace EIB

/-- Failure messages of the modelled Image and Operating System domain
validators (their source functions are only exercised by their tests under
src/); each constructor stands for one failure text of those tests, with
interpolated values carried as arguments. -/
inductive OSImageMsg where
  | imageTypeRequired
  | imageTypeInvalid
  | kernelArgFormat
  | kernelArgDuplicate (key : String)
  | kernelArgFIPS
  | systemdEnableDuplicates (names : String)
  | systemdDisableDuplicates (names : String)
  | systemdConflict (unit : String)
  | groupNameRequired
  | duplicateGroupName (name : String)
  | osUserNameRequired
  | userCredentialsRequired (username : String)
  | userCreateHomeDirRequired
  | duplicateUsername (name : String)
  | sumaHostRequired
  | sumaHostURLScheme
  | sumaActivationKeyRequired
  | packageEmptyValue
  | packageDuplicates (names : String)
  | addRepoURLRequired
  | addRepoDuplicates (names : String)
  | isoInstallDeviceNotISO
  | diskSizeInvalid
  | luksKeyNotRAW
  | expandWithoutLUKSKey
  | expandNotRAW
  | ntpSourceRequired
  | fipsRequiresPackages
  deriving DecidableEq, Repr

/-- Failure messages of the validation engine.  Each constructor stands for
one UserMessage format string of the source; interpolated values are carried
as arguments.  The concrete texts are documented at the validators that emit
them. -/
inductive Msg where
  | apiVIPRequired
  | hostnameRequired
  | nodeTypeInvalid
  | initialiserMustBeServer
  | duplicateNodes (names : String)
  | serverNodeRequired
  | singleInitialiser
  | manifestURLInvalidPrefix
  | manifestURLDuplicate (url : String)
  | helmChartsNoRepos
  | helmChartDuplicate (name : String)
  | helmChartNameRequired
  | helmChartRepositoryNameRequired (chartName : String)
  | helmChartVersionRequired (chartName : String)
  | helmChartCreateNamespace (chartName : String)
  | helmChartValuesFileExt (chartName : String)
  | helmChartValuesFileNotFound (file : String) (path : String)
  | helmChartValuesFileUnreadable (file : String)
  | helmRepoNameRequired
  | helmRepoNameUnmatched (name : String)
  | helmRepoURLRequired (name : String)
  | helmRepoURLInvalid (name : String)
  | helmRepoPasswordMissing (name : String)
  | helmRepoUsernameMissing (name : String)
  | imageNameRequired
  | duplicateImageName (name : String)
  | registryURIRequired
  | registryURIUnparseable (uri : String)
  | duplicateRegistryURI (uri : String)
  | registryUsernameRequired
  | registryPasswordRequired
  | fieldOnlyAvailable (path : String) (minVersion : String)
  | cidrMissing (field : String)
  | cidrUnparseable (field : String) (value : String)
  | cidrNonUnicast (field : String) (value : String)
  | cidrSameFamily (field : String)
  | cidrPrioMismatch
  | osImage (m : OSImageMsg)
  deriving DecidableEq, Repr

/-- Embeds the Go struct FailedValidation: `userMessage` is the UserMessage
field; `hasError` records whether the Error field was set (the source only
sets it together with the registryURIUnparseable message). -/
structure FailedValidation where
  userMessage : Msg
  hasError : Bool
  deriving DecidableEq, Repr

/-- Builds a FailedValidation with a nil Error, the way almost every
append in the source does. -/
def fail (m : Msg) : FailedValidation := ⟨m, false⟩

/-- Number of failures in a list carrying a given message.  Used to state
"exactly those entries produce that failure" claims. -/
def countMsg (m : Msg) : List FailedValidation → Nat
  | [] => 0
  | f :: rest => (if f.userMessage = m then 1 else 0) + countMsg m rest

/- ===================== Data model (from the source) ===================== -/

/-- Embeds RegistryAuthentication (pkg/image/validation registry source):
Username and Password strings. -/
structure RegistryAuthentication where
  username : String := ""
  password : String := ""
  deriving DecidableEq, Repr

/-- Embeds Registry: URI plus Authentication. -/
structure Registry where
  uri : String := ""
  authentication : RegistryAuthentication := {}
  deriving DecidableEq, Repr

/-- Embeds ContainerImage: the name field. -/
structure ContainerImage where
  name : String := ""
  deriving DecidableEq, Repr

/-- Embeds EmbeddedArtifactRegistry: ContainerImages and Registries. -/
structure EmbeddedArtifactRegistry where
  containerImages : List ContainerImage := []
  registries : List Registry := []
  deriving DecidableEq, Repr

/-- Embeds the Network struct as used by the validators under test:
APIVIP and APIVIP6 (the APIHost field is never read by the embedded
validators and is omitted). -/
structure Network where
  apiVIP : String := ""
  apiVIP6 : String := ""
  deriving DecidableEq, Repr

/-- Embeds Node: Hostname, Type and Initialiser. -/
structure Node where
  hostname : String := ""
  type : String := ""
  initialiser : Bool := false
  deriving DecidableEq, Repr

/-- Embeds Manifests: the URLs list. -/
structure Manifests where
  urls : List String := []
  deriving DecidableEq, Repr

/-- Embeds HelmAuthentication: Username and Password. -/
structure HelmAuthentication where
  username : String := ""
  password : String := ""
  deriving DecidableEq, Repr

/-- Embeds HelmRepository: the fields read by validateRepo.  The PlainHTTP,
SkipTLSVerify and CAFile fields are not read by the embedded validator
generation and are omitted. -/
structure HelmRepository where
  name : String := ""
  url : String := ""
  authentication : HelmAuthentication := {}
  deriving DecidableEq, Repr

/-- Embeds HelmChart: the fields read by validateChart and the version
gate.  InstallationNamespace is never read by the embedded code and is
omitted. -/
structure HelmChart where
  name : String := ""
  releaseName : String := ""
  repositoryName : String := ""
  version : String := ""
  targetNamespace : String := ""
  createNamespace : Bool := false
  valuesFile : String := ""
  apiVersions : List String := []
  deriving DecidableEq, Repr

/-- Embeds Helm: Charts and Repositories. -/
structure Helm where
  charts : List HelmChart := []
  repositories : List HelmRepository := []
  deriving DecidableEq, Repr

/-- Embeds Kubernetes: Version, Network, Nodes, Manifests, Helm. -/
structure Kubernetes where
  version : String := ""
  network : Network := {}
  nodes : List Node := []
  manifests : Manifests := {}
  helm : Helm := {}
  deriving DecidableEq, Repr

/-- Embeds the Image struct (context source): ImageType, Arch, BaseImage,
OutputImageName. -/
structure Image where
  imageType : String := ""
  arch : String := ""
  baseImage : String := ""
  outputImageName : String := ""
  deriving DecidableEq, Repr

/-- Embeds AddRepo (context source): the URL field read by the package
checks (the Unsigned flag is read by no embedded check and is omitted). -/
structure AddRepo where
  url : String := ""
  deriving DecidableEq, Repr

/-- Embeds OperatingSystemUser (context source): the fields read by the
user checks (UID, PrimaryGroup and SecondaryGroups are read by no
embedded check and are omitted). -/
structure OperatingSystemUser where
  username : String := ""
  encryptedPassword : String := ""
  sshKeys : List String := []
  createHomeDir : Bool := false
  deriving DecidableEq, Repr

/-- Embeds OperatingSystemGroup (context source): the Name field (GID is
read by no embedded check and is omitted). -/
structure OperatingSystemGroup where
  name : String := ""
  deriving DecidableEq, Repr

/-- Embeds Systemd (context source): the Enable and Disable lists. -/
structure Systemd where
  enable : List String := []
  disable : List String := []
  deriving DecidableEq, Repr

/-- Embeds Suma (context source): Host and ActivationKey. -/
structure Suma where
  host : String := ""
  activationKey : String := ""
  deriving DecidableEq, Repr

/-- Embeds IsoConfiguration (context source): InstallDevice. -/
structure IsoConfiguration where
  installDevice : String := ""
  deriving DecidableEq, Repr

/-- Embeds NtpConfiguration (context source): ForceWait, Pools,
Servers. -/
structure NtpConfiguration where
  forceWait : Bool := false
  pools : List String := []
  servers : List String := []
  deriving DecidableEq, Repr

/-- Embeds Time (context source): Timezone and the NTP configuration. -/
structure Time where
  timezone : String := ""
  ntp : NtpConfiguration := {}
  deriving DecidableEq, Repr

/-- Embeds the Packages struct (context source): the fields read by the
package checks and the version gate (NoGPGCheck is read by no embedded
check and is omitted). -/
structure Packages where
  enableExtras : Bool := false
  pkgList : List String := []
  additionalRepos : List AddRepo := []
  regCode : String := ""
  deriving DecidableEq, Repr

/-- Embeds RawConfiguration (context source): DiskSize, LUKSKey and
ExpandEncryptedPartition. -/
structure RawConfiguration where
  diskSize : String := ""
  luksKey : String := ""
  expandEncryptedPartition : Bool := false
  deriving DecidableEq, Repr

/-- Embeds OperatingSystem (image definition source): the fields read by
the operating-system checks and the version gate (Proxy and Keymap are
read by no embedded check and are omitted). -/
structure OperatingSystem where
  kernelArgs : List String := []
  groups : List OperatingSystemGroup := []
  users : List OperatingSystemUser := []
  systemd : Systemd := {}
  suma : Suma := {}
  packages : Packages := {}
  isoConfiguration : IsoConfiguration := {}
  rawConfiguration : RawConfiguration := {}
  time : Time := {}
  enableFIPS : Bool := false
  deriving DecidableEq, Repr

/-- Embeds the image Definition (image definition source): APIVersion,
Image, OperatingSystem, EmbeddedArtifactRegistry, Kubernetes. -/
structure Definition where
  apiVersion : String := ""
  image : Image := {}
  operatingSystem : OperatingSystem := {}
  kubernetes : Kubernetes := {}
  embeddedArtifactRegistry : EmbeddedArtifactRegistry := {}
  deriving DecidableEq, Repr

/-- Embeds the validation Context: the ImageDefinition and the
ImageConfigDir used for file-existence checks. -/
structure Context where
  imageDefinition : Definition := {}
  imageConfigDir : String := ""
  deriving DecidableEq, Repr

/- ===================== String helpers (Go stdlib) ===================== -/

/-- Embeds strings.HasPrefix on character lists: the first argument is the
candidate prefix pattern, the second the scanned text. -/
def charsStartWith : List Char → List Char → Bool
  | [], _ => true
  | _ :: _, [] => false
  | p :: ps, c :: cs => p = c && charsStartWith ps cs

/-- Embeds strings.HasPrefix(s, pat). -/
def strStartsWith (s pat : String) : Bool := charsStartWith pat.data s.data

/- ===================== Seen-set abstraction ===================== -/

/-- Abstract interface of the Go map[string]bool values the validators use
as seen-sets.  The source only ever inserts keys and queries membership;
it never ranges over these maps, so any implementation satisfying the two
membership laws realises them.  Run-to-run variation of the Go map
internals is captured by quantifying over implementations. -/
structure StrSet (σ : Type) where
  empty : σ
  ins : σ → String → σ
  mem : σ → String → Bool
  mem_ins : ∀ s x y, mem (ins s x) y = (mem s y || y = x)
  mem_empty : ∀ y, mem empty y = false

/-- The list implementation of StrSet used to instantiate the concrete
validators. -/
def listSet : StrSet (List String) where
  empty := []
  ins s x := x :: s
  mem s x := s.contains x
  mem_ins := by
    intro s x y
    simp [List.contains_cons]
    cases h : s.contains y <;> simp [Bool.or_comm]
  mem_empty := by intro y; rfl

/- ===================== Embedded artifact registry validators ===================== -/

/-- Embeds the loop body of validateContainerImages (registry source):
for each image, a missing-name failure when the name is empty
(text: The name field is required for each entry in images.), then a
duplicate failure when the name was already seen
(text: Duplicate image name %s found in the images section.), then the
name is inserted into the seen map. -/
def containerImagesLoop {σ : Type} (S : StrSet σ) : σ → List ContainerImage → List FailedValidation
  | _, [] => []
  | seen, img :: rest =>
    (if img.name = "" then [fail .imageNameRequired] else []) ++
    (if S.mem seen img.name then [fail (.duplicateImageName img.name)] else []) ++
    containerImagesLoop S (S.ins seen img.name) rest

/-- Embeds validateContainerImages, generic in the seen-map implementation. -/
def validateContainerImagesG {σ : Type} (S : StrSet σ) (ear : EmbeddedArtifactRegistry) :
    List FailedValidation :=
  containerImagesLoop S S.empty ear.containerImages

/-- Embeds validateContainerImages (registry source, lines 669-690). -/
def validateContainerImages (ear : EmbeddedArtifactRegistry) : List FailedValidation :=
  validateContainerImagesG listSet ear

/-- Embeds the loop body of validateCredentials (registry source, lines
738-750): a username failure when Username is empty (text: The username
field is required for each entry in
embeddedArtifactRegistry.registries.credentials.) and a password failure
when Password is empty (the corresponding password text). -/
def credentialChecks (r : Registry) : List FailedValidation :=
  (if r.authentication.username = "" then [fail .registryUsernameRequired] else []) ++
  (if r.authentication.password = "" then [fail .registryPasswordRequired] else [])

/-- Embeds validateCredentials (registry source, lines 735-753): the
credential checks run for every registry entry. -/
def validateCredentials (ear : EmbeddedArtifactRegistry) : List FailedValidation :=
  ear.registries.flatMap credentialChecks

/-- Embeds the loop of validateURLs (registry source, lines 701-733).
reference.Parse comes from an external library and is passed in as the
collaborator refParse (true means the URI parses).  On a parse error the
source appends a failure with the Error field set and continues without
recording the URI as seen; otherwise it reports duplicates and records the
URI. -/
def registryURLsLoop {σ : Type} (S : StrSet σ) (refParse : String → Bool) :
    σ → List Registry → List FailedValidation
  | _, [] => []
  | seen, r :: rest =>
    (if r.uri = "" then [fail .registryURIRequired] else []) ++
    (if !refParse r.uri then
      ⟨.registryURIUnparseable r.uri, true⟩ :: registryURLsLoop S refParse seen rest
    else
      (if S.mem seen r.uri then [fail (.duplicateRegistryURI r.uri)] else []) ++
      registryURLsLoop S refParse (S.ins seen r.uri) rest)

/-- Embeds validateURLs, generic in the seen-map implementation. -/
def validateURLsG {σ : Type} (S : StrSet σ) (refParse : String → Bool)
    (ear : EmbeddedArtifactRegistry) : List FailedValidation :=
  registryURLsLoop S refParse S.empty ear.registries

/-- Embeds validateRegistries (registry source, lines 692-699): URL checks
followed by credential checks. -/
def validateRegistriesG {σ : Type} (S : StrSet σ) (refParse : String → Bool)
    (ear : EmbeddedArtifactRegistry) : List FailedValidation :=
  validateURLsG S refParse ear ++ validateCredentials ear

/-- Embeds validateRegistries with the list seen-map implementation. -/
def validateRegistries (refParse : String → Bool) (ear : EmbeddedArtifactRegistry) :
    List FailedValidation :=
  validateRegistriesG listSet refParse ear

/-- Embeds validateEmbeddedArtifactRegistry (registry source, lines
658-667): registries first, then container images. -/
def validateEmbeddedArtifactRegistryG {σ : Type} (S : StrSet σ) (refParse : String → Bool)
    (ear : EmbeddedArtifactRegistry) : List FailedValidation :=
  validateRegistriesG S refParse ear ++ validateContainerImagesG S ear

/- ===================== Kubernetes validators ===================== -/

/-- Constant KubernetesNodeTypeServer. -/
def kubernetesNodeTypeServer : String := "server"

/-- Constant KubernetesNodeTypeAgent. -/
def kubernetesNodeTypeAgent : String := "agent"

/-- Modelled from the spec: the Duplicate/Uniqueness Checker of section 4.4
(the source function findDuplicates is not under src/): it returns the keys
occurring more than once, in first-occurrence order, each key reported
once. -/
def findDuplicates (xs : List String) : List String :=
  (xs.foldl
    (fun (acc : List String × List String) x =>
      if acc.1.contains x then
        (acc.1, if acc.2.contains x then acc.2 else acc.2 ++ [x])
      else
        (acc.1 ++ [x], acc.2))
    ([], [])).2

/-- Embeds the per-node checks of the loop in validateNodes (kubernetes
validation source, lines 239-268): missing hostname, type outside the
server/agent enumeration, and an initialiser of agent type. -/
def nodeChecks (n : Node) : List FailedValidation :=
  (if n.hostname = "" then [fail .hostnameRequired] else []) ++
  (if n.type ≠ kubernetesNodeTypeServer ∧ n.type ≠ kubernetesNodeTypeAgent then
    [fail .nodeTypeInvalid] else []) ++
  (if n.initialiser ∧ n.type = kubernetesNodeTypeAgent then
    [fail .initialiserMustBeServer] else [])

/-- Embeds validateNodes (kubernetes validation source, lines 220-292):
with at most one node the function returns no failures; otherwise it checks
the API VIP, runs the per-node loop, reports duplicate hostnames, requires
a server node, and allows at most one initialiser. -/
def validateNodes (k8s : Kubernetes) : List FailedValidation :=
  if k8s.nodes.length ≤ 1 then []
  else
    (if k8s.network.apiVIP = "" then [fail .apiVIPRequired] else []) ++
    k8s.nodes.flatMap nodeChecks ++
    (let dups := findDuplicates (k8s.nodes.map (·.hostname))
     if dups.isEmpty then []
     else [fail (.duplicateNodes (String.intercalate ", " dups))]) ++
    (if (k8s.nodes.map (·.type)).contains kubernetesNodeTypeServer then []
     else [fail .serverNodeRequired]) ++
    (if (k8s.nodes.filter (·.initialiser)).length > 1 then [fail .singleInitialiser] else [])

/-- Embeds the loop of validateManifestURLs (kubernetes validation source,
lines 301-317): for each URL a prefix failure when it does not begin with
http (text: Entries in urls must begin with either http:// or https://.)
and a duplicate failure when already seen; the URL is then recorded. -/
def manifestURLsLoop {σ : Type} (S : StrSet σ) : σ → List String → List FailedValidation
  | _, [] => []
  | seen, u :: rest =>
    (if !strStartsWith u "http" then [fail .manifestURLInvalidPrefix] else []) ++
    (if S.mem seen u then [fail (.manifestURLDuplicate u)] else []) ++
    manifestURLsLoop S (S.ins seen u) rest

/-- Embeds validateManifestURLs (kubernetes validation source, lines
294-320), generic in the seen-map implementation. -/
def validateManifestURLsG {σ : Type} (S : StrSet σ) (k8s : Kubernetes) :
    List FailedValidation :=
  match k8s.manifests.urls with
  | [] => []
  | _ => manifestURLsLoop S S.empty k8s.manifests.urls

/-- Embeds validateManifestURLs with the list seen-map implementation. -/
def validateManifestURLs (k8s : Kubernetes) : List FailedValidation :=
  validateManifestURLsG listSet k8s

/-- Result of the os.Stat collaborator used by validateHelmChartValues:
the file exists, does not exist (os.ErrNotExist), or another stat error
occurred. -/
inductive StatR where
  | ok
  | notExist
  | statError
  deriving DecidableEq, Repr

/-- Embeds Go filepath.Ext: the suffix from the final dot of the final
path element, empty when the final element has no dot.  The scan walks the
reversed character list and stops at a path separator. -/
def filepathExt (p : String) : String :=
  extScan p.data.reverse []
where
  extScan : List Char → List Char → String
    | [], _ => ""
    | c :: rest, acc =>
      if c = '/' then ""
      else if c = '.' then String.mk ('.' :: acc)
      else extScan rest (c :: acc)

/-- Modelled: Go filepath.Join applied to the already-clean relative
segments used by the validators; empty segments are dropped and the rest
joined with a slash (path cleaning beyond that is not modelled, no caller
in this development depends on it). -/
def filepathJoin (elems : List String) : String :=
  String.intercalate "/" (elems.filter (· ≠ ""))

/-- Modelled from the spec: the combustion directory constant K8sDir; the
spec and the tests place Helm values under kubernetes/helm/values. -/
def k8sDir : String := "kubernetes"

/-- Modelled from the spec: the combustion directory constant HelmDir. -/
def helmDir : String := "helm"

/-- Modelled from the spec: the combustion directory constant ValuesDir. -/
def valuesDir : String := "values"

/-- Embeds validateHelmChartValues (kubernetes validation source, lines
433-454).  The Go function returns a message string, empty meaning no
failure; the embedding returns an Option.  The filesystem probe os.Stat is
the collaborator fs. -/
def validateHelmChartValues (fs : String → StatR) (chartName valuesFile imageConfigDir : String) :
    Option Msg :=
  if valuesFile = "" then none
  else if filepathExt valuesFile ≠ ".yaml" ∧ filepathExt valuesFile ≠ ".yml" then
    some (.helmChartValuesFileExt chartName)
  else
    let valuesFilePath := filepathJoin [imageConfigDir, k8sDir, helmDir, valuesDir, valuesFile]
    match fs valuesFilePath with
    | .ok => none
    | .notExist => some (.helmChartValuesFileNotFound valuesFile valuesFilePath)
    | .statError => some (.helmChartValuesFileUnreadable valuesFile)

/-- Embeds validateChart (kubernetes validation source, lines 359-393):
missing name, missing repositoryName, missing version, createNamespace
without targetNamespace, and the values-file check. -/
def validateChart (fs : String → StatR) (imageConfigDir : String) (chart : HelmChart) :
    List FailedValidation :=
  (if chart.name = "" then [fail .helmChartNameRequired] else []) ++
  (if chart.repositoryName = "" then [fail (.helmChartRepositoryNameRequired chart.name)] else []) ++
  (if chart.version = "" then [fail (.helmChartVersionRequired chart.name)] else []) ++
  (if chart.createNamespace ∧ chart.targetNamespace = "" then
    [fail (.helmChartCreateNamespace chart.name)] else []) ++
  (match validateHelmChartValues fs chart.name chart.valuesFile imageConfigDir with
   | some m => [fail m]
   | none => [])

/-- Embeds validateRepo (kubernetes validation source, lines 395-431):
missing name or a name matching no chart, missing URL or a URL without an
oci:// or http prefix, and the one-sided credential checks. -/
def validateRepo {σ : Type} (S : StrSet σ) (seenHelmRepos : σ) (repo : HelmRepository) :
    List FailedValidation :=
  (if repo.name = "" then [fail .helmRepoNameRequired]
   else if !S.mem seenHelmRepos repo.name then [fail (.helmRepoNameUnmatched repo.name)]
   else []) ++
  (if repo.url = "" then [fail (.helmRepoURLRequired repo.name)]
   else if !strStartsWith repo.url "http" ∧ !strStartsWith repo.url "oci://" then
     [fail (.helmRepoURLInvalid repo.name)]
   else []) ++
  (if repo.authentication.username ≠ "" ∧ repo.authentication.password = "" then
    [fail (.helmRepoPasswordMissing repo.name)] else []) ++
  (if repo.authentication.username = "" ∧ repo.authentication.password ≠ "" then
    [fail (.helmRepoUsernameMissing repo.name)] else [])

/-- Embeds the loop of validateHelmChartDuplicates (kubernetes validation
source, lines 456-468): the first chart name already seen is returned as a
duplicate, otherwise the name is recorded and the scan continues. -/
def helmChartDuplicatesLoop {σ : Type} (S : StrSet σ) : σ → List HelmChart → Option Msg
  | _, [] => none
  | seen, c :: rest =>
    if S.mem seen c.name then some (.helmChartDuplicate c.name)
    else helmChartDuplicatesLoop S (S.ins seen c.name) rest

/-- Embeds the chart loop of validateHelm (lines 344-349): per-chart
failures are accumulated while each RepositoryName is recorded in the
seen-repos map; the final map is returned together with the failures. -/
def helmChartsLoop {σ : Type} (S : StrSet σ) (fs : String → StatR) (imageConfigDir : String) :
    σ → List HelmChart → List FailedValidation × σ
  | seen, [] => ([], seen)
  | seen, c :: rest =>
    let tail := helmChartsLoop S fs imageConfigDir (S.ins seen c.repositoryName) rest
    (validateChart fs imageConfigDir c ++ tail.1, tail.2)

/-- Embeds validateHelm (kubernetes validation source, lines 322-357):
with no charts there is nothing to do; with charts but no repositories the
single missing-repositories failure is returned immediately (text: Helm
charts defined with no Helm repositories defined.); otherwise the duplicate
check, the chart loop and the repository loop run in that order. -/
def validateHelmG {σ : Type} (S : StrSet σ) (k8s : Kubernetes) (imageConfigDir : String)
    (fs : String → StatR) : List FailedValidation :=
  match k8s.helm.charts with
  | [] => []
  | _ =>
    match k8s.helm.repositories with
    | [] => [fail .helmChartsNoRepos]
    | _ =>
      (match helmChartDuplicatesLoop S S.empty k8s.helm.charts with
       | some m => [fail m]
       | none => []) ++
      (let chartsOut := helmChartsLoop S fs imageConfigDir S.empty k8s.helm.charts
       chartsOut.1 ++ k8s.helm.repositories.flatMap (validateRepo S chartsOut.2))

/-- Embeds validateHelm with the list seen-map implementation. -/
def validateHelm (k8s : Kubernetes) (imageConfigDir : String) (fs : String → StatR) :
    List FailedValidation :=
  validateHelmG listSet k8s imageConfigDir fs

/-- Embeds isKubernetesDefined (kubernetes validation source, lines
216-218): a cluster is defined exactly when its version string is
non-empty. -/
def isKubernetesDefined (k8s : Kubernetes) : Bool :=
  k8s.version ≠ ""

/-- Embeds validateKubernetes (kubernetes validation source, lines
200-214), generic in the seen-map implementation: nothing is checked when
the cluster is undefined, otherwise nodes, manifest URLs and Helm are
validated in order. -/
def validateKubernetesG {σ : Type} (S : StrSet σ) (fs : String → StatR) (ctx : Context) :
    List FailedValidation :=
  if !isKubernetesDefined ctx.imageDefinition.kubernetes then []
  else
    validateNodes ctx.imageDefinition.kubernetes ++
    validateManifestURLsG S ctx.imageDefinition.kubernetes ++
    validateHelmG S ctx.imageDefinition.kubernetes ctx.imageConfigDir fs

/-- Embeds validateKubernetes with the list seen-map implementation. -/
def validateKubernetes (fs : String → StatR) (ctx : Context) : List FailedValidation :=
  validateKubernetesG listSet fs ctx

/- ===================== Disk size (context source, part_008) ===================== -/

/-- Embeds the scan of diskSizeRegexp after its first character: digits are
consumed, and the first non-digit character must be M, G or T.  Reaching
the end of the string without such a character is a failed match. -/
def diskSizeScan : List Char → Bool
  | [] => false
  | c :: rest => if c.isDigit then diskSizeScan rest else (c = 'M' || c = 'G' || c = 'T')

/-- Embeds MatchString of diskSizeRegexp (context source, line 31), the
pattern anchored at the start only: caret, then one or more repetitions of
(nonzero digit followed by one or more digits, or a single nonzero digit),
then one of M, G, T — and no end anchor.  Since the digit class and the
letter class are disjoint, the pattern matches exactly the strings whose
maximal leading digit run is non-empty, starts with a nonzero digit, and
is immediately followed by M, G or T; any trailing characters after that
letter are unconstrained. -/
def diskSizeRegexpMatch (s : String) : Bool :=
  match s.data with
  | [] => false
  | c :: rest => ('1' ≤ c && c ≤ '9') && diskSizeScan rest

/-- Embeds the method IsValid of DiskSize (context source, lines 90-92):
it is exactly a MatchString of diskSizeRegexp. -/
def DiskSize.IsValid (d : String) : Bool := diskSizeRegexpMatch d

/-- Tail scan for the reading of the disk-size rule in the specification:
all characters are digits except the final one, which must be M, G or T. -/
def specDiskSizeTail : List Char → Bool
  | [] => false
  | [c] => c = 'M' || c = 'G' || c = 'T'
  | c :: rest => c.isDigit && specDiskSizeTail rest

/-- A second definition following the words of the specification and the
claim, for comparison with the source definition: the string consists
exactly of a positive decimal integer (leading digit nonzero) immediately
followed by a single suffix M, G or T, with no other characters before or
after. -/
def specDiskSizeValid (s : String) : Bool :=
  match s.data with
  | [] => false
  | c :: rest => ('1' ≤ c && c ≤ '9') && specDiskSizeTail rest

/- ===================== Schema version gate (modelled) ===================== -/

/-- Splits a character list on a separator character; an empty input gives
one empty segment, matching the Go strings.Split behaviour. -/
def splitOnChar (sep : Char) : List Char → List (List Char)
  | [] => [[]]
  | c :: rest =>
    let r := splitOnChar sep rest
    if c = sep then [] :: r
    else
      match r with
      | h :: t => (c :: h) :: t
      | [] => [[c]]

/-- Splits a comma-separated configuration value into its entries. -/
def splitCommas (v : String) : List String :=
  (splitOnChar ',' v.data).map String.mk

/-- Value of a decimal digit, none otherwise. -/
def decVal (c : Char) : Option Nat :=
  if c.isDigit then some (c.toNat - '0'.toNat) else none

/-- Parses a non-empty all-decimal character list. -/
def parseDec (s : List Char) : Option Nat :=
  if s.isEmpty then none
  else
    s.foldl
      (fun acc c =>
        match acc, decVal c with
        | some v, some d => some (v * 10 + d)
        | _, _ => none)
      (some 0)

/-- Modelled from the spec: the schema-version comparator collaborator
(sections 4.2 and 6) parses a dotted version string into numeric major and
minor components; validateVersion itself is not under src/. -/
def parseMajorMinor (v : String) : Option (Nat × Nat) :=
  match splitOnChar '.' v.data with
  | [a, b] =>
    match parseDec a, parseDec b with
    | some x, some y => some (x, y)
    | _, _ => none
  | _ => none

/-- Modelled from the spec: numeric comparison of two dotted version
strings on major.minor components (not lexicographic).  When either side
does not parse, no gating failure is produced. -/
def versionLessThan (v minV : String) : Bool :=
  match parseMajorMinor v, parseMajorMinor minV with
  | some (a1, b1), some (a2, b2) => a1 < a2 || (a1 = a2 && b1 < b2)
  | _, _ => false

/-- Presence of the gated field kubernetes.helm.charts.apiVersions: some
chart declares a non-empty APIVersions list. -/
def gateChartAPIVersions (d : Definition) : Bool :=
  d.kubernetes.helm.charts.any (fun c => !c.apiVersions.isEmpty)

/-- Presence of the gated field operatingSystem.enableFIPS. -/
def gateEnableFIPS (d : Definition) : Bool := d.operatingSystem.enableFIPS

/-- Presence of the gated field kubernetes.network.apiVIP6. -/
def gateAPIVIP6 (d : Definition) : Bool := d.kubernetes.network.apiVIP6 != ""

/-- Presence of the gated field kubernetes.helm.charts.releaseName: some
chart declares a non-empty ReleaseName. -/
def gateChartReleaseName (d : Definition) : Bool :=
  d.kubernetes.helm.charts.any (fun c => c.releaseName != "")

/-- Presence of the gated field operatingSystem.rawConfiguration.luksKey. -/
def gateLUKSKey (d : Definition) : Bool :=
  d.operatingSystem.rawConfiguration.luksKey != ""

/-- Presence of the gated field
operatingSystem.rawConfiguration.expandEncryptedPartition. -/
def gateExpandEncrypted (d : Definition) : Bool :=
  d.operatingSystem.rawConfiguration.expandEncryptedPartition

/-- Presence of the gated field operatingSystem.packages.enableExtras. -/
def gateEnableExtras (d : Definition) : Bool := d.operatingSystem.packages.enableExtras

/-- Presence of the gated field embeddedArtifactRegistry.registries. -/
def gateRegistries (d : Definition) : Bool :=
  !d.embeddedArtifactRegistry.registries.isEmpty

/-- Modelled from the spec: validateVersion (the Schema Version Gate,
section 4.2; the source function is only exercised by its test under
src/).  For each entry of the static field table, when the declared API
version is numerically lower than the minimum version of the field and the
field is non-empty, non-zero or non-default, a failure of the form
Field path is only available in API version at least minimum is emitted.
The table and its minimum versions are the ones fixed by the test data. -/
def validateVersion (d : Definition) : List FailedValidation :=
  (if versionLessThan d.apiVersion "1.1" && gateChartAPIVersions d then
    [fail (.fieldOnlyAvailable "kubernetes.helm.charts.apiVersions" "1.1")] else []) ++
  (if versionLessThan d.apiVersion "1.1" && gateEnableFIPS d then
    [fail (.fieldOnlyAvailable "operatingSystem.enableFIPS" "1.1")] else []) ++
  (if versionLessThan d.apiVersion "1.2" && gateAPIVIP6 d then
    [fail (.fieldOnlyAvailable "kubernetes.network.apiVIP6" "1.2")] else []) ++
  (if versionLessThan d.apiVersion "1.2" && gateChartReleaseName d then
    [fail (.fieldOnlyAvailable "kubernetes.helm.charts.releaseName" "1.2")] else []) ++
  (if versionLessThan d.apiVersion "1.2" && gateLUKSKey d then
    [fail (.fieldOnlyAvailable "operatingSystem.rawConfiguration.luksKey" "1.2")] else []) ++
  (if versionLessThan d.apiVersion "1.2" && gateExpandEncrypted d then
    [fail (.fieldOnlyAvailable "operatingSystem.rawConfiguration.expandEncryptedPartition" "1.2")]
   else []) ++
  (if versionLessThan d.apiVersion "1.2" && gateEnableExtras d then
    [fail (.fieldOnlyAvailable "operatingSystem.packages.enableExtras" "1.2")] else []) ++
  (if versionLessThan d.apiVersion "1.2" && gateRegistries d then
    [fail (.fieldOnlyAvailable "embeddedArtifactRegistry.registries" "1.2")] else [])

/- ===================== Network addresses and CIDR (modelled) ===================== -/

/-- Address family of a literal address or CIDR block. -/
inductive Family where
  | v4
  | v6
  deriving DecidableEq, Repr

/-- Value of a hexadecimal digit, none otherwise. -/
def hexVal (c : Char) : Option Nat :=
  if '0' ≤ c ∧ c ≤ '9' then some (c.toNat - '0'.toNat)
  else if 'a' ≤ c ∧ c ≤ 'f' then some (c.toNat - 'a'.toNat + 10)
  else if 'A' ≤ c ∧ c ≤ 'F' then some (c.toNat - 'A'.toNat + 10)
  else none

/-- Parses one IPv6 group of one to four hexadecimal digits. -/
def parseHexGroup (s : List Char) : Option Nat :=
  if s.length = 0 ∨ s.length > 4 then none
  else
    s.foldl
      (fun acc c =>
        match acc, hexVal c with
        | some v, some h => some (v * 16 + h)
        | _, _ => none)
      (some 0)

/-- Modelled from the spec: parsing of an IPv4 dotted-quad literal (the
Network Address Validator of section 4.3; the source network validation
functions are not under src/).  Four decimal octets up to 255. -/
def parseIPv4 (s : List Char) : Option (Nat × Nat × Nat × Nat) :=
  match (splitOnChar '.' s).map parseDec with
  | [some a, some b, some c, some d] =>
    if a ≤ 255 ∧ b ≤ 255 ∧ c ≤ 255 ∧ d ≤ 255 then some (a, b, c, d) else none
  | _ => none

/-- Finds the first double colon of an IPv6 literal, returning the
characters before and after it. -/
def splitDoubleColon : List Char → Option (List Char × List Char)
  | [] => none
  | ':' :: ':' :: rest => some ([], rest)
  | c :: rest => (splitDoubleColon rest).map (fun p => (c :: p.1, p.2))

/-- Parses a colon-separated sequence of IPv6 groups; an empty input means
zero groups. -/
def parseGroups (s : List Char) : Option (List Nat) :=
  if s.isEmpty then some []
  else (splitOnChar ':' s).mapM parseHexGroup

/-- Modelled from the spec: parsing of an IPv6 literal into its eight
16-bit groups, supporting one double-colon zero compression (embedded
IPv4 tails are not modelled; no input in this development uses them). -/
def parseIPv6 (s : List Char) : Option (List Nat) :=
  match splitDoubleColon s with
  | some (l, r) =>
    if (splitDoubleColon r).isSome then none
    else
      match parseGroups l, parseGroups r with
      | some gl, some gr =>
        if gl.length + gr.length ≤ 7 then
          some (gl ++ List.replicate (8 - gl.length - gr.length) 0 ++ gr)
        else none
      | _, _ => none
  | none =>
    match parseGroups s with
    | some gs => if gs.length = 8 then some gs else none
    | none => none

/-- Modelled from the spec: the IsUnicast classification for IPv4
(section 4.3) — rejected when unspecified, loopback, multicast or
link-local. -/
def ipv4Unicast (ip : Nat × Nat × Nat × Nat) : Bool :=
  let (a, b, c, d) := ip
  !(a = 0 ∧ b = 0 ∧ c = 0 ∧ d = 0) && !(a = 127) &&
  !(224 ≤ a ∧ a ≤ 239) && !(a = 169 ∧ b = 254)

/-- Modelled from the spec: the IsUnicast classification for IPv6 —
rejected when unspecified, loopback, multicast (ff00 block) or link-local
(fe80 block). -/
def ipv6Unicast (gs : List Nat) : Bool :=
  match gs with
  | [g0, g1, g2, g3, g4, g5, g6, g7] =>
    !(g0 = 0 ∧ g1 = 0 ∧ g2 = 0 ∧ g3 = 0 ∧ g4 = 0 ∧ g5 = 0 ∧ g6 = 0 ∧ g7 = 0) &&
    !(g0 = 0 ∧ g1 = 0 ∧ g2 = 0 ∧ g3 = 0 ∧ g4 = 0 ∧ g5 = 0 ∧ g6 = 0 ∧ g7 = 1) &&
    !(0xff00 ≤ g0 ∧ g0 ≤ 0xffff) && !(0xfe80 ≤ g0 ∧ g0 ≤ 0xfebf)
  | _ => false

/-- Modelled from the spec: parsing of one CIDR block (section 4.3) —
splits on the slash, validates the prefix length for the family, and
reports the address family together with the unicast classification; none
when the block does not parse. -/
def cidrInfo (s : String) : Option (Family × Bool) :=
  match splitOnChar '/' s.data with
  | [addr, plenChars] =>
    match parseDec plenChars with
    | none => none
    | some plen =>
      if addr.contains ':' then
        match parseIPv6 addr with
        | some gs => if plen ≤ 128 then some (.v6, ipv6Unicast gs) else none
        | none => none
      else
        match parseIPv4 addr with
        | some ip => if plen ≤ 32 then some (.v4, ipv4Unicast ip) else none
        | none => none
  | _ => none

/-- Address family of a CIDR block, none when it does not parse. -/
def cidrFamilyOf (s : String) : Option Family := (cidrInfo s).map Prod.fst

/-- Lookup in the server configuration key-value collaborator (section 6);
the Go side reads a map, embedded as an association list with the first
binding winning. -/
def lookupConfig (sc : List (String × String)) (key : String) : Option String :=
  match sc with
  | [] => none
  | (k, v) :: rest => if k = key then some v else lookupConfig rest key

/-- Modelled from the spec: validation of a single CIDR block of one field
— the block must parse and must be a unicast range (section 4.3). -/
def cidrEntryChecks (field : String) (e : String) : List FailedValidation :=
  match cidrInfo e with
  | none => [fail (.cidrUnparseable field e)]
  | some (_, uni) => if uni then [] else [fail (.cidrNonUnicast field e)]

/-- Modelled from the spec: per-entry validation of all CIDR blocks of one
field (section 4.3). -/
def checkCIDREntries (field : String) (entries : List String) : List FailedValidation :=
  entries.flatMap (cidrEntryChecks field)

/-- Modelled from the spec: validation of the split entry list of one
cluster-cidr or service-cidr field — at most two comma-separated blocks,
every block parseable and unicast, and two blocks in one field of
different families. -/
def checkCIDRFieldEntries (field : String) (entries : List String) : List FailedValidation :=
  if entries.length > 2 then [fail (.cidrMissing field)]
  else
    checkCIDREntries field entries ++
    (match entries with
     | [e1, e2] =>
       (match cidrFamilyOf e1, cidrFamilyOf e2 with
        | some f1, some f2 => if f1 = f2 then [fail (.cidrSameFamily field)] else []
        | _, _ => [])
     | _ => [])

/-- Modelled from the spec: validation of one cluster-cidr or service-cidr
field value — the field must be present when dual-stack addressing was
requested, and a present value is validated entry by entry. -/
def checkCIDRField (dualVIP : Bool) (field : String) (v : Option String) :
    List FailedValidation :=
  match v with
  | none => if dualVIP then [fail (.cidrMissing field)] else []
  | some str => checkCIDRFieldEntries field (splitCommas str)

/-- Modelled from the spec: the family-ordering comparison between
cluster-cidr and service-cidr — when both fields carry two entries, the
family listed first must agree between the two fields, reported
independently of the validity of the individual blocks (section 4.3). -/
def cidrPrioCheck (cluster service : Option String) : List FailedValidation :=
  match cluster, service with
  | some cv, some sv =>
    (match splitCommas cv, splitCommas sv with
     | [c1, _], [s1, _] =>
       (match cidrFamilyOf c1, cidrFamilyOf s1 with
        | some f1, some f2 => if f1 ≠ f2 then [fail .cidrPrioMismatch] else []
        | _, _ => [])
     | _, _ => [])
  | _, _ => []

/-- Modelled from the spec: validateCIDRConfig (sections 4.3 and 6; the
source function is only exercised by its test under src/).  The
cluster-cidr and service-cidr values of the server configuration are each
validated, with the presence requirement active when both API VIPs are
declared, followed by the family-ordering comparison. -/
def validateCIDRConfig (k8s : Kubernetes) (serverConfig : List (String × String)) :
    List FailedValidation :=
  let dualVIP := k8s.network.apiVIP != "" && k8s.network.apiVIP6 != ""
  let cluster := lookupConfig serverConfig "cluster-cidr"
  let service := lookupConfig serverConfig "service-cidr"
  checkCIDRField dualVIP "cluster-cidr" cluster ++
  checkCIDRField dualVIP "service-cidr" service ++
  cidrPrioCheck cluster service

/- ============ Image and operating-system validators (modelled) ============ -/

/-- Embeds the constant TypeISO (context source). -/
def typeISO : String := "iso"

/-- Embeds the constant TypeRAW (context source). -/
def typeRAW : String := "raw"

/-- Modelled from the spec: the Image domain validator (section 4.5; the
source function is only exercised by the orchestrator test under src/).
The image type is required — the orchestrator test expects the failure for
a definition without one even when no type-specific sub-configuration is
present — and must be one of the two supported values.  The further image
rules the spec marks as representative are not needed by any claim and are
not modelled. -/
def validateImage (d : Definition) : List FailedValidation :=
  if d.image.imageType = "" then [fail (.osImage .imageTypeRequired)]
  else if d.image.imageType ≠ typeISO ∧ d.image.imageType ≠ typeRAW then
    [fail (.osImage .imageTypeInvalid)]
  else []

/-- Splits a kernel argument at its first equals sign, none when it has
no equals sign. -/
def splitFirstEq : List Char → Option (List Char × List Char)
  | [] => none
  | '=' :: rest => some ([], rest)
  | c :: rest => (splitFirstEq rest).map (fun p => (c :: p.1, p.2))

/-- Modelled from the spec: the per-entry key=value check on one kernel
argument (section 4.5) — an entry containing an equals sign must have a
non-empty key and a non-empty value; the test fixture (os test, entry
baz) shows that an entry without an equals sign is accepted as a bare
flag, so the rule applies only to entries containing an equals sign. -/
def kernelArgChecks (arg : String) : List FailedValidation :=
  match splitFirstEq arg.data with
  | none => []
  | some (k, v) => if k.isEmpty ∨ v.isEmpty then [fail (.osImage .kernelArgFormat)] else []

/-- The duplicate-detection key of a kernel argument: the part before the
equals sign, or the whole entry for a bare flag; malformed entries are
stripped first, following section 8. -/
def kernelArgKeys (args : List String) : List String :=
  args.filterMap fun arg =>
    match splitFirstEq arg.data with
    | none => some arg
    | some (k, v) => if k.isEmpty ∨ v.isEmpty then none else some (String.mk k)

/-- Modelled from the spec: the kernel-argument checks (section 4.5) —
per-entry key=value form, one duplicate failure per repeated key, and the
FIPS-via-kernel-arguments failure the orchestrator test expects for the
entry fips=1. -/
def validateKernelArgs (os : OperatingSystem) : List FailedValidation :=
  os.kernelArgs.flatMap kernelArgChecks ++
  (findDuplicates (kernelArgKeys os.kernelArgs)).map (fun k => fail (.osImage (.kernelArgDuplicate k))) ++
  (if os.kernelArgs.contains "fips=1" then [fail (.osImage .kernelArgFIPS)] else [])

/-- Modelled from the spec: the systemd conflict check (section 4.5) — a
unit present in both the enable and the disable list is a conflict,
reported once per enabled unit, in enable-list order.  The disable list
is loaded into a seen-map and each enabled unit looked up, the natural
Go map realisation. -/
def systemdConflictsG {σ : Type} (S : StrSet σ) (os : OperatingSystem) :
    List FailedValidation :=
  let seen := os.systemd.disable.foldl S.ins S.empty
  os.systemd.enable.flatMap fun u =>
    if S.mem seen u then [fail (.osImage (.systemdConflict u))] else []

/-- Modelled from the spec: the systemd checks (section 4.5) — neither
list may self-duplicate (one failure per list naming the duplicated
units), and the two lists must not conflict. -/
def validateSystemdG {σ : Type} (S : StrSet σ) (os : OperatingSystem) :
    List FailedValidation :=
  (let d := findDuplicates os.systemd.enable
   if d.isEmpty then [] else [fail (.osImage (.systemdEnableDuplicates (String.intercalate ", " d)))]) ++
  (let d := findDuplicates os.systemd.disable
   if d.isEmpty then [] else [fail (.osImage (.systemdDisableDuplicates (String.intercalate ", " d)))]) ++
  systemdConflictsG S os

/-- Modelled from the spec: the group checks (section 4.5) — every group
needs a name, and one duplicate failure per repeated name. -/
def validateGroups (os : OperatingSystem) : List FailedValidation :=
  os.groups.flatMap (fun g => if g.name = "" then [fail (.osImage .groupNameRequired)] else []) ++
  (findDuplicates (os.groups.map (·.name))).map (fun n => fail (.osImage (.duplicateGroupName n)))

/-- Modelled from the spec: the per-user checks (section 4.5) — a user
needs a name, at least a password or an SSH key, and declaring SSH keys
requires requesting home-directory creation. -/
def userChecks (u : OperatingSystemUser) : List FailedValidation :=
  (if u.username = "" then [fail (.osImage .osUserNameRequired)] else []) ++
  (if u.encryptedPassword = "" ∧ u.sshKeys.isEmpty then
    [fail (.osImage (.userCredentialsRequired u.username))] else []) ++
  (if !u.sshKeys.isEmpty ∧ !u.createHomeDir then [fail (.osImage .userCreateHomeDirRequired)] else [])

/-- Modelled from the spec: the user checks (section 4.5) — the per-user
rules plus one duplicate failure per repeated username. -/
def validateUsers (os : OperatingSystem) : List FailedValidation :=
  os.users.flatMap userChecks ++
  (findDuplicates (os.users.map (·.username))).map (fun n => fail (.osImage (.duplicateUsername n)))

/-- Modelled from the spec: the registration checks (section 4.5) — an
absent suma section (no host, no key) is fine; otherwise the host is
required and must not encode a URL scheme, and the activation key is
required. -/
def validateSuma (os : OperatingSystem) : List FailedValidation :=
  if os.suma.host = "" ∧ os.suma.activationKey = "" then []
  else
    (if os.suma.host = "" then [fail (.osImage .sumaHostRequired)]
     else if strStartsWith os.suma.host "http://" ∨ strStartsWith os.suma.host "https://" then
       [fail (.osImage .sumaHostURLScheme)]
     else []) ++
    (if os.suma.activationKey = "" then [fail (.osImage .sumaActivationKeyRequired)] else [])

/-- Modelled from the spec: the package checks (section 4.5) — package
list entries must be non-empty and unique, additional repositories must
carry a URL and the URLs must be unique; the duplicate failures name the
duplicated values, joined. -/
def validatePackages (os : OperatingSystem) : List FailedValidation :=
  (if os.packages.pkgList.contains "" then [fail (.osImage .packageEmptyValue)] else []) ++
  (let d := findDuplicates os.packages.pkgList
   if d.isEmpty then [] else [fail (.osImage (.packageDuplicates (String.intercalate ", " d)))]) ++
  (if os.packages.additionalRepos.any (fun r => r.url = "") then
    [fail (.osImage .addRepoURLRequired)] else []) ++
  (let d := findDuplicates (os.packages.additionalRepos.map (·.url))
   if d.isEmpty then [] else [fail (.osImage (.addRepoDuplicates (String.intercalate ", " d)))])

/-- Modelled from the spec: the install-device rule (section 4.5) — an
install-device override is only meaningful for the ISO image type. -/
def validateIsoConfig (d : Definition) : List FailedValidation :=
  if d.operatingSystem.isoConfiguration.installDevice ≠ "" ∧ d.image.imageType ≠ typeISO then
    [fail (.osImage .isoInstallDeviceNotISO)]
  else []

/-- Modelled from the spec: the raw-configuration rules (section 4.5) —
a declared disk size must match the pattern (DiskSize.IsValid from the
context source), the encryption key and the expand flag are raw-only, and
the expand flag requires the key. -/
def validateRawConfig (d : Definition) : List FailedValidation :=
  (if d.operatingSystem.rawConfiguration.diskSize ≠ "" ∧
      !DiskSize.IsValid d.operatingSystem.rawConfiguration.diskSize then
    [fail (.osImage .diskSizeInvalid)] else []) ++
  (if d.operatingSystem.rawConfiguration.luksKey ≠ "" ∧ d.image.imageType ≠ typeRAW then
    [fail (.osImage .luksKeyNotRAW)] else []) ++
  (if d.operatingSystem.rawConfiguration.expandEncryptedPartition ∧
      d.operatingSystem.rawConfiguration.luksKey = "" then
    [fail (.osImage .expandWithoutLUKSKey)] else []) ++
  (if d.operatingSystem.rawConfiguration.expandEncryptedPartition ∧
      d.image.imageType ≠ typeRAW then
    [fail (.osImage .expandNotRAW)] else [])

/-- Modelled from the spec: the time-synchronization rule (section 4.5) —
forcing a wait for NTP synchronization requires at least one pool or
server. -/
def validateTimeSync (os : OperatingSystem) : List FailedValidation :=
  if os.time.ntp.forceWait ∧ os.time.ntp.pools.isEmpty ∧ os.time.ntp.servers.isEmpty then
    [fail (.osImage .ntpSourceRequired)]
  else []

/-- Modelled from the spec: the FIPS rule (section 4.5) — enabling FIPS
requires a registration code or at least one additional repository. -/
def validateFIPS (os : OperatingSystem) : List FailedValidation :=
  if os.enableFIPS ∧ os.packages.regCode = "" ∧ os.packages.additionalRepos.isEmpty then
    [fail (.osImage .fipsRequiresPackages)]
  else []

/-- Modelled from the spec: the Operating System domain validator
(section 4.5; the source function is only exercised by its tests under
src/) — every rule family is evaluated and all violations collected, in
the order the tests exercise them. -/
def validateOperatingSystemG {σ : Type} (S : StrSet σ) (d : Definition) :
    List FailedValidation :=
  validateKernelArgs d.operatingSystem ++
  validateSystemdG S d.operatingSystem ++
  validateGroups d.operatingSystem ++
  validateUsers d.operatingSystem ++
  validateSuma d.operatingSystem ++
  validatePackages d.operatingSystem ++
  validateIsoConfig d ++
  validateRawConfig d ++
  validateTimeSync d.operatingSystem ++
  validateFIPS d.operatingSystem

/-- Embeds the operating-system validator with the list seen-map
implementation. -/
def validateOperatingSystem (d : Definition) : List FailedValidation :=
  validateOperatingSystemG listSet d

/-- Modelled from the spec: the Validation Orchestrator ValidateDefinition
(sections 2, 3 and 4.1; the source function is only exercised by its test
under src/).  It invokes every domain validator in the fixed component
order of section 2 — Image, Operating System, Embedded Artifact Registry,
Kubernetes — collects every failure, never short-circuits, and groups the
failures by component name; components with zero failures are omitted
(section 3).  The Go grouped result is a map from component name to
failure slice, embedded as an association list in the fixed invocation
order.  The component strings Artifact Registry and Kubernetes are the
registryComponent and k8sComponent constants of the source.  The Schema
Version Gate is organizationally independent (section 4.2) and the spec
fixes no component name for its failures, so it is not part of the
grouped result here; validateVersion reads only the document, so its
determinism is definitional. -/
def ValidateDefinition {σ : Type} (S : StrSet σ) (fs : String → StatR)
    (refParse : String → Bool) (ctx : Context) : List (String × List FailedValidation) :=
  ([("Image", validateImage ctx.imageDefinition),
    ("Operating System", validateOperatingSystemG S ctx.imageDefinition),
    ("Artifact Registry",
      validateEmbeddedArtifactRegistryG S refParse
        ctx.imageDefinition.embeddedArtifactRegistry),
    ("Kubernetes", validateKubernetesG S fs ctx)]).filter
    (fun e => !e.2.isEmpty)

/-- Two seen-map states of two implementations agree when they hold the
same keys. -/
def memAgree {σ1 σ2 : Type} (S1 : StrSet σ1) (S2 : StrSet σ2) (s1 : σ1) (s2 : σ2) : Prop :=
  ∀ y, S1.mem s1 y = S2.mem s2 y

/- ===================== Helper lemmas ===================== -/

theorem countMsg_append (m : Msg) (l1 l2 : List FailedValidation) :
    countMsg m (l1 ++ l2) = countMsg m l1 + countMsg m l2 := by
  induction l1 with
  | nil => simp [countMsg]
  | cons f rest ih => simp [countMsg, ih]; omega

theorem countMsg_if_single (m : Msg) (c : Prop) [Decidable c] (x : FailedValidation) :
    countMsg m (if c then [x] else []) =
      if c then (if x.userMessage = m then 1 else 0) else 0 := by
  split <;> simp [countMsg]

theorem mem_if_single {α : Type} {c : Prop} [Decidable c] (a x : α) :
    (a ∈ if c then [x] else []) ↔ (c ∧ a = x) := by
  split <;> simp_all

theorem listSet_mem (s : List String) (x : String) : listSet.mem s x = s.contains x := rfl

theorem listSet_ins (s : List String) (x : String) : listSet.ins s x = x :: s := rfl

theorem listSet_empty : listSet.empty = ([] : List String) := rfl

theorem credentials_username_count (regs : List Registry) :
    countMsg .registryUsernameRequired (regs.flatMap credentialChecks) =
      (regs.filter (fun r => r.authentication.username == "")).length := by
  induction regs with
  | nil => simp [countMsg]
  | cons r rest ih =>
    by_cases hu : r.authentication.username = "" <;>
      by_cases hp : r.authentication.password = "" <;>
        simp [credentialChecks, countMsg_append, countMsg_if_single, countMsg, fail, hu, hp, ih] <;>
          omega

theorem credentials_password_count (regs : List Registry) :
    countMsg .registryPasswordRequired (regs.flatMap credentialChecks) =
      (regs.filter (fun r => r.authentication.password == "")).length := by
  induction regs with
  | nil => simp [countMsg]
  | cons r rest ih =>
    by_cases hu : r.authentication.username = "" <;>
      by_cases hp : r.authentication.password = "" <;>
        simp [credentialChecks, countMsg_append, countMsg_if_single, countMsg, fail, hu, hp, ih] <;>
          omega

theorem registryURLsLoop_count_other {σ : Type} (S : StrSet σ) (refParse : String → Bool)
    (m : Msg)
    (h0 : m ≠ .registryURIRequired)
    (h1 : ∀ u, m ≠ .registryURIUnparseable u)
    (h2 : ∀ u, m ≠ .duplicateRegistryURI u) :
    ∀ (regs : List Registry) (seen : σ),
      countMsg m (registryURLsLoop S refParse seen regs) = 0 := by
  intro regs
  induction regs with
  | nil => intro seen; simp [registryURLsLoop, countMsg]
  | cons r rest ih =>
    intro seen
    simp only [registryURLsLoop]
    by_cases hpar : refParse r.uri = false
    · simp [hpar, countMsg_append, countMsg_if_single, countMsg, fail, ih,
        (h1 r.uri).symm, h0.symm]
    · have hpar' : refParse r.uri = true := by
        cases h : refParse r.uri
        · exact absurd h hpar
        · rfl
      simp [hpar', countMsg_append, countMsg_if_single, countMsg, fail, ih,
        (h2 r.uri).symm, h0.symm]

theorem containerImagesLoop_dup_count (n : String) :
    ∀ (imgs : List ContainerImage) (seen : List String),
      countMsg (.duplicateImageName n) (containerImagesLoop listSet seen imgs) =
        if n ∈ seen then (imgs.filter (fun i => i.name == n)).length
        else (imgs.filter (fun i => i.name == n)).length - 1 := by
  intro imgs
  induction imgs with
  | nil => intro seen; simp [containerImagesLoop, countMsg]
  | cons img rest ih =>
    intro seen
    by_cases hn : img.name = n
    · subst hn
      by_cases hs : img.name ∈ seen <;>
        simp [containerImagesLoop, countMsg_append, countMsg_if_single, countMsg, fail,
          listSet_mem, listSet_ins, List.elem_iff, hs, ih, List.mem_cons] <;>
        omega
    · by_cases hs : n ∈ seen <;>
        simp [containerImagesLoop, countMsg_append, countMsg_if_single, countMsg, fail,
          listSet_mem, listSet_ins, List.elem_iff, hs, hn, Ne.symm hn, ih, List.mem_cons]

theorem containerImagesLoop_missing_count :
    ∀ (imgs : List ContainerImage) (seen : List String),
      countMsg .imageNameRequired (containerImagesLoop listSet seen imgs) =
        (imgs.filter (fun i => i.name == "")).length := by
  intro imgs
  induction imgs with
  | nil => intro seen; simp [containerImagesLoop, countMsg]
  | cons img rest ih =>
    intro seen
    by_cases hn : img.name = "" <;>
      by_cases hs : listSet.mem seen img.name = true <;>
        simp [containerImagesLoop, countMsg_append, countMsg_if_single, countMsg, fail,
          hn, hs, ih] <;>
        omega

theorem manifestURLsLoop_invalid_count :
    ∀ (urls : List String) (seen : List String),
      countMsg .manifestURLInvalidPrefix (manifestURLsLoop listSet seen urls) =
        (urls.filter (fun u => !strStartsWith u "http")).length := by
  intro urls
  induction urls with
  | nil => intro seen; simp [manifestURLsLoop, countMsg]
  | cons u rest ih =>
    intro seen
    by_cases hp : strStartsWith u "http" = true <;>
      by_cases hs : listSet.mem seen u = true <;>
        simp [manifestURLsLoop, countMsg_append, countMsg_if_single, countMsg, fail,
          hp, hs, ih] <;>
        omega

/- ===================== Claim theorems ===================== -/

/-- C1 (amended): validateCredentials reports, for every registry entry,
the username failure exactly when the username is empty and the password
failure exactly when the password is empty — so an entry supplying both
yields no failure, an entry supplying exactly one yields exactly one
failure, and an entry supplying neither yields both failures; and
validateRegistries adds no further credential failures beyond those of
validateCredentials, for any reference parser and any seen-map
implementation. -/
theorem credentials_per_field_failures :
    ∀ (ear : EmbeddedArtifactRegistry),
      countMsg .registryUsernameRequired (validateCredentials ear) =
        (ear.registries.filter (fun r => r.authentication.username == "")).length ∧
      countMsg .registryPasswordRequired (validateCredentials ear) =
        (ear.registries.filter (fun r => r.authentication.password == "")).length ∧
      ∀ {σ : Type} (S : StrSet σ) (refParse : String → Bool),
        countMsg .registryUsernameRequired (validateRegistriesG S refParse ear) =
          countMsg .registryUsernameRequired (validateCredentials ear) ∧
        countMsg .registryPasswordRequired (validateRegistriesG S refParse ear) =
          countMsg .registryPasswordRequired (validateCredentials ear) := by
  intro ear
  refine ⟨credentials_username_count ear.registries, credentials_password_count ear.registries,
    ?_⟩
  intro σ S refParse
  constructor
  · simp [validateRegistriesG, validateURLsG, countMsg_append,
      registryURLsLoop_count_other S refParse Msg.registryUsernameRequired
        (by simp) (by simp) (by simp)]
  · simp [validateRegistriesG, validateURLsG, countMsg_append,
      registryURLsLoop_count_other S refParse Msg.registryPasswordRequired
        (by simp) (by simp) (by simp)]

/-- C1 (counterexample): a registry entry supplying neither a username nor
a password — for which the claim predicts no credentials failure — makes
validateCredentials report both the username failure and the password
failure. -/
theorem credentials_neither_counterexample :
    validateCredentials ⟨[], [⟨"docker.io", ⟨"", ""⟩⟩]⟩ =
      [fail .registryUsernameRequired, fail .registryPasswordRequired] ∧
    validateCredentials ⟨[], [⟨"docker.io", ⟨"", ""⟩⟩]⟩ ≠ [] := by
  constructor <;> decide

/-- C10: in validateContainerImages, empty names take part in duplicate
detection like any other name — for every list and every name n, the
duplicate failure for n is emitted once for each entry after the first
bearing n, and the missing-name failure once per entry with an empty name;
in particular a list of two entries with empty names yields the
missing-name failure twice plus one duplicate failure for the empty
string. -/
theorem container_images_duplicate_empty_names :
    (∀ (ear : EmbeddedArtifactRegistry) (n : String),
      countMsg (.duplicateImageName n) (validateContainerImages ear) =
        (ear.containerImages.filter (fun i => i.name == n)).length - 1 ∧
      countMsg .imageNameRequired (validateContainerImages ear) =
        (ear.containerImages.filter (fun i => i.name == "")).length) ∧
    validateContainerImages ⟨[⟨""⟩, ⟨""⟩], []⟩ =
      [fail .imageNameRequired, fail .imageNameRequired, fail (.duplicateImageName "")] := by
  refine ⟨?_, by decide⟩
  intro ear n
  refine ⟨?_, containerImagesLoop_missing_count ear.containerImages _⟩
  have h := containerImagesLoop_dup_count n ear.containerImages []
  simpa [validateContainerImages, validateContainerImagesG, listSet_empty] using h

/-- C7: validateKubernetes checks nothing when the Kubernetes version
string is empty, and otherwise runs the node, manifest-URL and Helm checks
in order, collecting their failures. -/
theorem kubernetes_version_gating :
    ∀ (fs : String → StatR) (ctx : Context),
      validateKubernetes fs ctx =
        if ctx.imageDefinition.kubernetes.version = "" then []
        else
          validateNodes ctx.imageDefinition.kubernetes ++
          validateManifestURLs ctx.imageDefinition.kubernetes ++
          validateHelm ctx.imageDefinition.kubernetes ctx.imageConfigDir fs := by
  intro fs ctx
  by_cases h : ctx.imageDefinition.kubernetes.version = "" <;>
    simp [validateKubernetes, validateKubernetesG, isKubernetesDefined,
      validateManifestURLs, validateHelm, h]

/-- C8: validateNodes returns zero failures for every node list with at
most one entry, regardless of the node contents, the network section or
anything else in the cluster definition. -/
theorem nodes_single_node_exemption :
    ∀ (k8s : Kubernetes), k8s.nodes.length ≤ 1 → validateNodes k8s = [] := by
  intro k8s h
  simp [validateNodes, h]

/-- C8 (witness): a single node missing its hostname, carrying an invalid
type and marked initialiser, with no API VIP declared, produces no
failures. -/
theorem nodes_single_node_exemption_witness :
    validateNodes ⟨"v1.30.3+k3s1", {}, [⟨"", "bogus", true⟩], {}, {}⟩ = [] :=
  nodes_single_node_exemption _ (by decide)

/-- C3 (amended): with at least one chart and zero repositories,
validateHelm reports the missing-repositories failure and returns
immediately, evaluating none of the chart-level rules. -/
theorem helm_no_repos_short_circuit (k8s : Kubernetes) (dir : String) (fs : String → StatR)
    (hcharts : k8s.helm.charts ≠ []) (hrepos : k8s.helm.repositories = []) :
    validateHelm k8s dir fs = [fail .helmChartsNoRepos] := by
  cases hc : k8s.helm.charts with
  | nil => exact absurd hc hcharts
  | cons c cs => simp [validateHelm, validateHelmG, hc, hrepos]

/-- C3 (witness): a well-formed chart with no repositories yields exactly
the missing-repositories failure. -/
theorem helm_no_repos_short_circuit_witness :
    validateHelm
      ⟨"v1.30.3+k3s1", {}, [], {},
        ⟨[⟨"apache", "", "apache-repo", "10.7.0", "", false, "", []⟩], []⟩⟩
      "cfg" (fun _ => .notExist) = [fail .helmChartsNoRepos] :=
  helm_no_repos_short_circuit _ _ _ (by decide) rfl

/-- C3 (counterexample): a chart with an empty name and zero repositories
— for which the claim predicts both the missing-repositories failure and
the missing chart-name failure — produces only the missing-repositories
failure; the chart-name rule is not evaluated. -/
theorem helm_no_repos_counterexample :
    validateHelm ⟨"v1.30.3+k3s1", {}, [], {}, ⟨[{}], []⟩⟩ "cfg" (fun _ => .notExist) =
      [fail .helmChartsNoRepos] ∧
    fail .helmChartNameRequired ∉
      validateHelm ⟨"v1.30.3+k3s1", {}, [], {}, ⟨[{}], []⟩⟩ "cfg" (fun _ => .notExist) := by
  exact ⟨rfl, by decide⟩

/-- C4 (amended): validateManifestURLs emits the invalid-prefix failure
for exactly those URL entries that do not begin with the four characters
http — entries such as httpx://foo.com, which begin with http but with
neither the http:// nor the https:// scheme, are not flagged. -/
theorem manifest_url_prefix_amended :
    ∀ (k8s : Kubernetes),
      countMsg .manifestURLInvalidPrefix (validateManifestURLs k8s) =
        (k8s.manifests.urls.filter (fun u => !strStartsWith u "http")).length := by
  intro k8s
  cases hu : k8s.manifests.urls with
  | nil => simp [validateManifestURLs, validateManifestURLsG, hu, countMsg]
  | cons u rest =>
    have h := manifestURLsLoop_invalid_count (u :: rest) []
    simp only [validateManifestURLs, validateManifestURLsG, hu]
    simpa [listSet_empty] using h

/-- C4 (counterexample): the entry httpx://foo.com begins with neither the
http:// scheme nor the https:// scheme, yet validateManifestURLs emits no
failure for it, because the source only tests the prefix http. -/
theorem manifest_url_prefix_counterexample :
    validateManifestURLs ⟨"v1.30.3+k3s1", {}, [], ⟨["httpx://foo.com"]⟩, {}⟩ = [] ∧
    strStartsWith "httpx://foo.com" "http://" = false ∧
    strStartsWith "httpx://foo.com" "https://" = false := by
  exact ⟨rfl, by decide, by decide⟩

theorem diskSizeScan_append (t : List Char) :
    ∀ (rest : List Char), specDiskSizeTail rest = true → diskSizeScan (rest ++ t) = true := by
  intro rest
  induction rest with
  | nil => intro h; simp [specDiskSizeTail] at h
  | cons c rest2 ih =>
    intro h
    cases rest2 with
    | nil =>
      simp [specDiskSizeTail] at h
      rcases h with (h | h) | h <;> subst h <;>
        simp [diskSizeScan, (by decide : ('M').isDigit = false),
          (by decide : ('G').isDigit = false), (by decide : ('T').isDigit = false)]
    | cons c2 rest3 =>
      simp [specDiskSizeTail] at h
      obtain ⟨h1, h2⟩ := h
      simpa [diskSizeScan, h1] using ih h2

/-- C2: the disk-size pattern is anchored at the start only, so
DiskSize.IsValid accepts strings with trailing characters after the size
suffix — 64GB is accepted although the claim (and the spec reading,
specDiskSizeValid) rejects it; exact strings such as 64G are accepted by
both, and in general appending any characters to a string valid in the
spec reading keeps IsValid true. -/
theorem disk_size_regexp_not_end_anchored :
    DiskSize.IsValid "64GB" = true ∧ specDiskSizeValid "64GB" = false ∧
    DiskSize.IsValid "64G" = true ∧ specDiskSizeValid "64G" = true ∧
    DiskSize.IsValid "0G" = false ∧ DiskSize.IsValid "G" = false ∧
    DiskSize.IsValid "-100G" = false ∧ DiskSize.IsValid "100g" = false ∧
    (∀ (s t : String), specDiskSizeValid s = true → DiskSize.IsValid (s ++ t) = true) := by
  refine ⟨by decide, by decide, by decide, by decide, by decide, by decide, by decide,
    by decide, ?_⟩
  intro s t h
  unfold specDiskSizeValid at h
  unfold DiskSize.IsValid diskSizeRegexpMatch
  rw [String.data_append]
  cases cs : s.data with
  | nil => rw [cs] at h; simp at h
  | cons c rest =>
    rw [cs] at h
    simp only [List.cons_append]
    simp [Bool.and_eq_true] at h
    obtain ⟨⟨h1, h2⟩, h3⟩ := h
    simp [h1, h2, diskSizeScan_append t.data rest h3]

/-- C2 (witness): the final conjunct applied at the concrete input 64G
with trailing junk B. -/
theorem disk_size_regexp_not_end_anchored_witness :
    DiskSize.IsValid ("64G" ++ "B") = true :=
  disk_size_regexp_not_end_anchored.2.2.2.2.2.2.2.2 "64G" "B" (by decide)

/-- C6: the Schema Version Gate emits the availability failure for a gated
field exactly when that field is present (non-empty, non-zero,
non-default) and the declared API version is numerically lower than the
field minimum, for every entry of the gate table; and the comparison is
numeric on major.minor components, so version 1.10 compares greater than
1.2. -/
theorem version_gate_field_availability :
    ∀ (d : Definition),
      ((fail (.fieldOnlyAvailable "kubernetes.helm.charts.apiVersions" "1.1") ∈ validateVersion d)
        ↔ (versionLessThan d.apiVersion "1.1" = true ∧ gateChartAPIVersions d = true)) ∧
      ((fail (.fieldOnlyAvailable "operatingSystem.enableFIPS" "1.1") ∈ validateVersion d)
        ↔ (versionLessThan d.apiVersion "1.1" = true ∧ gateEnableFIPS d = true)) ∧
      ((fail (.fieldOnlyAvailable "kubernetes.network.apiVIP6" "1.2") ∈ validateVersion d)
        ↔ (versionLessThan d.apiVersion "1.2" = true ∧ gateAPIVIP6 d = true)) ∧
      ((fail (.fieldOnlyAvailable "kubernetes.helm.charts.releaseName" "1.2") ∈ validateVersion d)
        ↔ (versionLessThan d.apiVersion "1.2" = true ∧ gateChartReleaseName d = true)) ∧
      ((fail (.fieldOnlyAvailable "operatingSystem.rawConfiguration.luksKey" "1.2")
          ∈ validateVersion d)
        ↔ (versionLessThan d.apiVersion "1.2" = true ∧ gateLUKSKey d = true)) ∧
      ((fail (.fieldOnlyAvailable "operatingSystem.rawConfiguration.expandEncryptedPartition"
            "1.2") ∈ validateVersion d)
        ↔ (versionLessThan d.apiVersion "1.2" = true ∧ gateExpandEncrypted d = true)) ∧
      ((fail (.fieldOnlyAvailable "operatingSystem.packages.enableExtras" "1.2")
          ∈ validateVersion d)
        ↔ (versionLessThan d.apiVersion "1.2" = true ∧ gateEnableExtras d = true)) ∧
      ((fail (.fieldOnlyAvailable "embeddedArtifactRegistry.registries" "1.2")
          ∈ validateVersion d)
        ↔ (versionLessThan d.apiVersion "1.2" = true ∧ gateRegistries d = true)) ∧
      versionLessThan "1.10" "1.2" = false ∧
      versionLessThan "1.2" "1.10" = true ∧
      versionLessThan "1.0" "1.1" = true ∧
      versionLessThan "1.1" "1.2" = true := by
  intro d
  refine ⟨?_, ?_, ?_, ?_, ?_, ?_, ?_, ?_, by decide, by decide, by decide, by decide⟩ <;>
    simp [validateVersion, mem_if_single, fail, List.mem_append, Bool.and_eq_true]

theorem cidrEntryChecks_no_mismatch (field e : String) :
    countMsg .cidrPrioMismatch (cidrEntryChecks field e) = 0 := by
  unfold cidrEntryChecks
  cases hc : cidrInfo e with
  | none => simp [countMsg, fail]
  | some p =>
    obtain ⟨f, uni⟩ := p
    cases uni <;> simp [countMsg, fail]

theorem checkCIDREntries_no_mismatch (field : String) (es : List String) :
    countMsg .cidrPrioMismatch (checkCIDREntries field es) = 0 := by
  induction es with
  | nil => simp [checkCIDREntries, countMsg]
  | cons e rest ih =>
    simpa [checkCIDREntries, countMsg_append, cidrEntryChecks_no_mismatch] using ih

theorem checkCIDRFieldEntries_no_mismatch (field : String) (es : List String) :
    countMsg .cidrPrioMismatch (checkCIDRFieldEntries field es) = 0 := by
  unfold checkCIDRFieldEntries
  by_cases hl : es.length > 2
  · simp [hl, countMsg, fail]
  · rw [if_neg hl, countMsg_append, checkCIDREntries_no_mismatch]
    cases es with
    | nil => simp [countMsg]
    | cons e1 rest =>
      cases rest with
      | nil => simp [countMsg]
      | cons e2 rest2 =>
        cases rest2 with
        | cons e3 rest3 => simp [countMsg]
        | nil =>
          cases hf1 : cidrFamilyOf e1 with
          | none => simp [hf1, countMsg]
          | some f1 =>
            cases hf2 : cidrFamilyOf e2 with
            | none => simp [hf1, hf2, countMsg]
            | some f2 => by_cases hf : f1 = f2 <;> simp [hf1, hf2, hf, countMsg, fail]

theorem checkCIDRField_no_mismatch (dual : Bool) (field : String) (v : Option String) :
    countMsg .cidrPrioMismatch (checkCIDRField dual field v) = 0 := by
  cases v with
  | none => cases dual <;> simp [checkCIDRField, countMsg, fail]
  | some str => simpa [checkCIDRField] using checkCIDRFieldEntries_no_mismatch field _

/-- C5: whenever the server configuration holds a cluster-cidr with two
entries listing IPv4 first and IPv6 second, and a service-cidr with two
entries listing IPv6 first and IPv4 second, validateCIDRConfig reports the
prioritization mismatch exactly once — independently of whether the
individual CIDR blocks are unicast-valid and of everything else in the
cluster definition. -/
theorem cidr_prio_mismatch_reported_once :
    ∀ (k8s : Kubernetes) (sc : List (String × String)) (cv sv c1 c2 s1 s2 : String),
      lookupConfig sc "cluster-cidr" = some cv →
      lookupConfig sc "service-cidr" = some sv →
      splitCommas cv = [c1, c2] →
      splitCommas sv = [s1, s2] →
      cidrFamilyOf c1 = some .v4 →
      cidrFamilyOf c2 = some .v6 →
      cidrFamilyOf s1 = some .v6 →
      cidrFamilyOf s2 = some .v4 →
      countMsg .cidrPrioMismatch (validateCIDRConfig k8s sc) = 1 := by
  intro k8s sc cv sv c1 c2 s1 s2 hcl hsv hsc hss hf1 hf2 hg1 hg2
  unfold validateCIDRConfig
  rw [hcl, hsv, countMsg_append, countMsg_append,
    checkCIDRField_no_mismatch, checkCIDRField_no_mismatch]
  simp [cidrPrioCheck, hsc, hss, hf1, hg1, countMsg, fail]

/-- C5 (witness): the spec scenario — cluster-cidr 10.42.0.0/16,fd12::/48
against service-cidr fd12::/64,10.43.0.0/16 — yields the prioritization
mismatch exactly once. -/
theorem cidr_prio_mismatch_reported_once_witness :
    countMsg .cidrPrioMismatch
      (validateCIDRConfig {}
        [("cluster-cidr", "10.42.0.0/16,fd12::/48"),
         ("service-cidr", "fd12::/64,10.43.0.0/16")]) = 1 :=
  cidr_prio_mismatch_reported_once {} _ _ _ "10.42.0.0/16" "fd12::/48" "fd12::/64" "10.43.0.0/16"
    rfl rfl (by decide) (by decide) (by decide) (by decide) (by decide) (by decide)

theorem memAgree_ins {σ1 σ2 : Type} {S1 : StrSet σ1} {S2 : StrSet σ2} {s1 : σ1} {s2 : σ2}
    (h : memAgree S1 S2 s1 s2) (x : String) :
    memAgree S1 S2 (S1.ins s1 x) (S2.ins s2 x) := by
  intro y
  rw [S1.mem_ins, S2.mem_ins, h y]

theorem memAgree_empty {σ1 σ2 : Type} (S1 : StrSet σ1) (S2 : StrSet σ2) :
    memAgree S1 S2 S1.empty S2.empty := by
  intro y
  rw [S1.mem_empty, S2.mem_empty]

theorem manifestURLsLoop_congr {σ1 σ2 : Type} {S1 : StrSet σ1} {S2 : StrSet σ2} :
    ∀ (urls : List String) (s1 : σ1) (s2 : σ2), memAgree S1 S2 s1 s2 →
      manifestURLsLoop S1 s1 urls = manifestURLsLoop S2 s2 urls := by
  intro urls
  induction urls with
  | nil => intro s1 s2 _; rfl
  | cons u rest ih =>
    intro s1 s2 h
    simp only [manifestURLsLoop]
    rw [h u, ih _ _ (memAgree_ins h u)]

theorem containerImagesLoop_congr {σ1 σ2 : Type} {S1 : StrSet σ1} {S2 : StrSet σ2} :
    ∀ (imgs : List ContainerImage) (s1 : σ1) (s2 : σ2), memAgree S1 S2 s1 s2 →
      containerImagesLoop S1 s1 imgs = containerImagesLoop S2 s2 imgs := by
  intro imgs
  induction imgs with
  | nil => intro s1 s2 _; rfl
  | cons img rest ih =>
    intro s1 s2 h
    simp only [containerImagesLoop]
    rw [h img.name, ih _ _ (memAgree_ins h img.name)]

theorem registryURLsLoop_congr {σ1 σ2 : Type} {S1 : StrSet σ1} {S2 : StrSet σ2}
    (refParse : String → Bool) :
    ∀ (regs : List Registry) (s1 : σ1) (s2 : σ2), memAgree S1 S2 s1 s2 →
      registryURLsLoop S1 refParse s1 regs = registryURLsLoop S2 refParse s2 regs := by
  intro regs
  induction regs with
  | nil => intro s1 s2 _; rfl
  | cons r rest ih =>
    intro s1 s2 h
    simp only [registryURLsLoop]
    rw [h r.uri, ih _ _ (memAgree_ins h r.uri), ih _ _ h]

theorem helmChartDuplicatesLoop_congr {σ1 σ2 : Type} {S1 : StrSet σ1} {S2 : StrSet σ2} :
    ∀ (cs : List HelmChart) (s1 : σ1) (s2 : σ2), memAgree S1 S2 s1 s2 →
      helmChartDuplicatesLoop S1 s1 cs = helmChartDuplicatesLoop S2 s2 cs := by
  intro cs
  induction cs with
  | nil => intro s1 s2 _; rfl
  | cons c rest ih =>
    intro s1 s2 h
    simp only [helmChartDuplicatesLoop]
    rw [h c.name, ih _ _ (memAgree_ins h c.name)]

theorem helmChartsLoop_fst {σ : Type} (S : StrSet σ) (fs : String → StatR) (dir : String) :
    ∀ (cs : List HelmChart) (s : σ),
      (helmChartsLoop S fs dir s cs).1 = cs.flatMap (validateChart fs dir) := by
  intro cs
  induction cs with
  | nil => intro s; rfl
  | cons c rest ih => intro s; simp [helmChartsLoop, ih]

theorem helmChartsLoop_snd_agree {σ1 σ2 : Type} {S1 : StrSet σ1} {S2 : StrSet σ2}
    (fs : String → StatR) (dir : String) :
    ∀ (cs : List HelmChart) (s1 : σ1) (s2 : σ2), memAgree S1 S2 s1 s2 →
      memAgree S1 S2 (helmChartsLoop S1 fs dir s1 cs).2 (helmChartsLoop S2 fs dir s2 cs).2 := by
  intro cs
  induction cs with
  | nil => intro s1 s2 h; exact h
  | cons c rest ih =>
    intro s1 s2 h
    exact ih _ _ (memAgree_ins h c.repositoryName)

theorem validateRepo_congr {σ1 σ2 : Type} {S1 : StrSet σ1} {S2 : StrSet σ2}
    {s1 : σ1} {s2 : σ2} (h : memAgree S1 S2 s1 s2) (r : HelmRepository) :
    validateRepo S1 s1 r = validateRepo S2 s2 r := by
  unfold validateRepo
  rw [h r.name]

theorem flatMap_validateRepo_congr {σ1 σ2 : Type} {S1 : StrSet σ1} {S2 : StrSet σ2}
    {s1 : σ1} {s2 : σ2} (h : memAgree S1 S2 s1 s2) :
    ∀ (repos : List HelmRepository),
      repos.flatMap (validateRepo S1 s1) = repos.flatMap (validateRepo S2 s2) := by
  intro repos
  induction repos with
  | nil => rfl
  | cons r rest ih => simp [List.flatMap_cons, validateRepo_congr h r, ih]

theorem validateHelmG_congr {σ1 σ2 : Type} (S1 : StrSet σ1) (S2 : StrSet σ2)
    (k8s : Kubernetes) (dir : String) (fs : String → StatR) :
    validateHelmG S1 k8s dir fs = validateHelmG S2 k8s dir fs := by
  unfold validateHelmG
  cases hc : k8s.helm.charts with
  | nil => rfl
  | cons c cs =>
    cases hr : k8s.helm.repositories with
    | nil => rfl
    | cons r rs =>
      have h1 := @helmChartDuplicatesLoop_congr σ1 σ2 S1 S2 (c :: cs) S1.empty S2.empty
        (memAgree_empty S1 S2)
      have h2 : (helmChartsLoop S1 fs dir S1.empty (c :: cs)).1
          = (helmChartsLoop S2 fs dir S2.empty (c :: cs)).1 := by
        rw [helmChartsLoop_fst, helmChartsLoop_fst]
      have h3 := flatMap_validateRepo_congr
        (helmChartsLoop_snd_agree fs dir (c :: cs) S1.empty S2.empty (memAgree_empty S1 S2))
        (r :: rs)
      simp only [h1, h2, h3]

theorem validateManifestURLsG_congr {σ1 σ2 : Type} (S1 : StrSet σ1) (S2 : StrSet σ2)
    (k8s : Kubernetes) :
    validateManifestURLsG S1 k8s = validateManifestURLsG S2 k8s := by
  unfold validateManifestURLsG
  cases hu : k8s.manifests.urls with
  | nil => rfl
  | cons u rest => rw [manifestURLsLoop_congr _ _ _ (memAgree_empty S1 S2)]

theorem validateKubernetesG_congr {σ1 σ2 : Type} (S1 : StrSet σ1) (S2 : StrSet σ2)
    (fs : String → StatR) (ctx : Context) :
    validateKubernetesG S1 fs ctx = validateKubernetesG S2 fs ctx := by
  unfold validateKubernetesG
  rw [validateManifestURLsG_congr S1 S2, validateHelmG_congr S1 S2]

theorem validateEmbeddedArtifactRegistryG_congr {σ1 σ2 : Type} (S1 : StrSet σ1)
    (S2 : StrSet σ2) (refParse : String → Bool) (ear : EmbeddedArtifactRegistry) :
    validateEmbeddedArtifactRegistryG S1 refParse ear =
      validateEmbeddedArtifactRegistryG S2 refParse ear := by
  unfold validateEmbeddedArtifactRegistryG validateRegistriesG validateURLsG
    validateContainerImagesG
  rw [registryURLsLoop_congr refParse _ _ _ (memAgree_empty S1 S2),
    containerImagesLoop_congr _ _ _ (memAgree_empty S1 S2)]

theorem foldl_ins_agree {σ1 σ2 : Type} {S1 : StrSet σ1} {S2 : StrSet σ2} :
    ∀ (xs : List String) (s1 : σ1) (s2 : σ2), memAgree S1 S2 s1 s2 →
      memAgree S1 S2 (xs.foldl S1.ins s1) (xs.foldl S2.ins s2) := by
  intro xs
  induction xs with
  | nil => intro s1 s2 h; exact h
  | cons x rest ih => intro s1 s2 h; exact ih _ _ (memAgree_ins h x)

theorem systemdConflictsG_congr {σ1 σ2 : Type} (S1 : StrSet σ1) (S2 : StrSet σ2)
    (os : OperatingSystem) : systemdConflictsG S1 os = systemdConflictsG S2 os := by
  have h := foldl_ins_agree os.systemd.disable S1.empty S2.empty (memAgree_empty S1 S2)
  show os.systemd.enable.flatMap _ = os.systemd.enable.flatMap _
  induction os.systemd.enable with
  | nil => rfl
  | cons u rest ih => simp only [List.flatMap_cons, h u, ih]

theorem validateSystemdG_congr {σ1 σ2 : Type} (S1 : StrSet σ1) (S2 : StrSet σ2)
    (os : OperatingSystem) : validateSystemdG S1 os = validateSystemdG S2 os := by
  unfold validateSystemdG
  rw [systemdConflictsG_congr S1 S2]

theorem validateOperatingSystemG_congr {σ1 σ2 : Type} (S1 : StrSet σ1) (S2 : StrSet σ2)
    (d : Definition) : validateOperatingSystemG S1 d = validateOperatingSystemG S2 d := by
  unfold validateOperatingSystemG
  rw [validateSystemdG_congr S1 S2]

theorem ValidateDefinition_congr {σ1 σ2 : Type} (S1 : StrSet σ1) (S2 : StrSet σ2)
    (fs : String → StatR) (refParse : String → Bool) (ctx : Context) :
    ValidateDefinition S1 fs refParse ctx = ValidateDefinition S2 fs refParse ctx := by
  unfold ValidateDefinition
  rw [validateOperatingSystemG_congr S1 S2,
    validateEmbeddedArtifactRegistryG_congr S1 S2 refParse,
    validateKubernetesG_congr S1 S2 fs ctx]

/-- C9: for every fixed document, directory and filesystem state, the
validation entry points are deterministic.  The grouped result of the
orchestrator ValidateDefinition and the ordered failure sequence of each
domain validator are independent of the seen-map implementation — the
only channel through which the run-to-run variation of the Go map
internals could enter, since the source inserts into and queries its
map[string]bool values but never ranges over them, and emits every
failure while iterating input slices.  Two invocations whose map
implementations differ therefore return bit-identical grouped results and
bit-identical per-domain failure sequences (the Image validator and the
Schema Version Gate read only the document, carry no map, and appear
inside the grouped result), and the concrete list-backed validators
compute that common value. -/
theorem validators_deterministic :
    ∀ {σ1 σ2 : Type} (S1 : StrSet σ1) (S2 : StrSet σ2) (fs : String → StatR)
      (refParse : String → Bool) (ctx : Context) (ear : EmbeddedArtifactRegistry),
      ValidateDefinition S1 fs refParse ctx = ValidateDefinition S2 fs refParse ctx ∧
      validateOperatingSystemG S1 ctx.imageDefinition =
        validateOperatingSystemG S2 ctx.imageDefinition ∧
      validateKubernetesG S1 fs ctx = validateKubernetesG S2 fs ctx ∧
      validateEmbeddedArtifactRegistryG S1 refParse ear =
        validateEmbeddedArtifactRegistryG S2 refParse ear ∧
      ValidateDefinition listSet fs refParse ctx = ValidateDefinition S1 fs refParse ctx ∧
      validateKubernetes fs ctx = validateKubernetesG S1 fs ctx := by
  intro σ1 σ2 S1 S2 fs refParse ctx ear
  exact ⟨ValidateDefinition_congr S1 S2 fs refParse ctx,
    validateOperatingSystemG_congr S1 S2 ctx.imageDefinition,
    validateKubernetesG_congr S1 S2 fs ctx,
    validateEmbeddedArtifactRegistryG_congr S1 S2 refParse ear,
    ValidateDefinition_congr listSet S1 fs refParse ctx,
    validateKubernetesG_congr listSet S1 fs ctx⟩

end EIB
